import Mathlib

/-!
Verification of the Chess.io server (`src/app.py`) against its
natural-language specification.

The Python module is shallowly embedded below:
- the in-memory registry `room_players` becomes an association list keyed
  by room code, with Python-dict update/delete semantics (`dinsert`,
  `dremove`, `dlookup`);
- each socket handler (`on_join`, `on_toggle_ready`, `on_move`,
  `on_disconnect`, `on_leave`) becomes a pure state transformer returning
  the new registry together with the list of emitted socket events and the
  list of database writes it performs;
- the python-chess library used by `on_move` is an external collaborator
  and is abstracted as a `Rules` record of the operations the handler
  calls on it;
- the Elo logic (`calculate_elo_change`, `handle_game_over`) is embedded
  over the reals, and the difficulty table `get_bot_depth` over the
  integers.
-/

namespace ChessApp

/-! ### Python dict semantics over association lists -/

/-- Lookup in a dict modelled as an association list (keys are unique in
any list built by `dinsert`/`dremove`, so first-match lookup agrees with
Python dict lookup). -/
def dlookup {κ α : Type} [DecidableEq κ] : List (κ × α) → κ → Option α
  | [], _ => none
  | (k, v) :: rest, key => if k = key then some v else dlookup rest key

/-- Python `d[key] = v`: overwrite the existing binding, else append. -/
def dinsert {κ α : Type} [DecidableEq κ] : List (κ × α) → κ → α → List (κ × α)
  | [], key, v => [(key, v)]
  | (k, w) :: rest, key, v =>
      if k = key then (key, v) :: rest else (k, w) :: dinsert rest key v

/-- Python `del d[key]`. -/
def dremove {κ α : Type} [DecidableEq κ] : List (κ × α) → κ → List (κ × α)
  | [], _ => []
  | (k, w) :: rest, key => if k = key then rest else (k, w) :: dremove rest key

theorem dlookup_dinsert_self {κ α : Type} [DecidableEq κ]
    (l : List (κ × α)) (k : κ) (v : α) : dlookup (dinsert l k v) k = some v := by
  induction l with
  | nil => simp [dinsert, dlookup]
  | cons hd tl ih =>
      obtain ⟨k', v'⟩ := hd
      by_cases h : k' = k
      · simp [dinsert, h, dlookup]
      · simp [dinsert, h, dlookup, ih]

theorem dlookup_dinsert_ne {κ α : Type} [DecidableEq κ]
    (l : List (κ × α)) (k k' : κ) (v : α) (h : k ≠ k') :
    dlookup (dinsert l k v) k' = dlookup l k' := by
  induction l with
  | nil => simp [dinsert, dlookup, h]
  | cons hd tl ih =>
      obtain ⟨k0, v0⟩ := hd
      by_cases h0 : k0 = k
      · simp [dinsert, h0, dlookup, h]
      · simp [dinsert, h0, dlookup, ih]

/-! ### Data model of the websocket room registry -/

/-- One entry of the module-level `room_players` dict:
`players` list of sids, `ready` dict sid → bool, `colors` dict sid → color
string, exactly as in `app.py`. -/
structure RoomData where
  players : List Nat
  ready : List (Nat × Bool)
  colors : List (Nat × String)
  deriving Repr, DecidableEq

/-- The fresh room value `room_players[room_code] = ...` created by
`on_join`. -/
def emptyRoom : RoomData := { players := [], ready := [], colors := [] }

/-- The module-level `room_players` dict. -/
def Registry : Type := List (String × RoomData)

/-- Destination of a socketio `emit`: back to the request sender, or a
broadcast to a room. -/
inductive Dest where
  | sender : Dest
  | room : String → Dest
  deriving Repr, DecidableEq

/-- The socket events emitted by the handlers, with their payload fields. -/
inductive Msg where
  | assign_color (color message : String) : Msg
  | player_status (player_count ready_count max_players : Nat) : Msg
  | game_start (message : String) : Msg
  | move_made (move board : String) (is_check game_over : Bool)
      (result : Option String) : Msg
  | error (message : String) : Msg
  | player_left (count : Nat) : Msg
  deriving Repr, DecidableEq

/-- Database writes the handlers perform on the `rooms` table. -/
inductive DbOp where
  | setStatus (code status : String) : DbOp
  | setBoard (code fen turn : String) : DbOp
  deriving Repr, DecidableEq

/-- Result of running one handler: new registry, emitted events in order,
database writes in order. -/
structure HandlerOut where
  st : Registry
  emits : List (Msg × Dest)
  db : List DbOp

/-- `sum(1 for ready in d.values() if ready)`. -/
def ready_count (l : List (Nat × Bool)) : Nat :=
  (l.filter (fun p => p.2)).length

/-! ### The socket handlers -/

/-- `on_join` (app.py lines 389-429): create the room entry if absent, add
the sid to the roster if absent, assign a color keyed on the resulting
occupancy count, and broadcast the occupancy/ready status. -/
def on_join (st : Registry) (room_code : String) (sid : Nat) : HandlerOut :=
  let st1 := if (dlookup st room_code).isSome then st
             else dinsert st room_code emptyRoom
  let rd := (dlookup st1 room_code).getD emptyRoom
  let rd1 := if sid ∈ rd.players then rd
             else { rd with players := rd.players ++ [sid],
                            ready := dinsert rd.ready sid false }
  let player_count := rd1.players.length
  let step :=
    if player_count = 1 then
      ({ rd1 with colors := dinsert rd1.colors sid "white" },
       (Msg.assign_color "white" "Vous jouez les Blancs", Dest.sender))
    else if player_count = 2 then
      ({ rd1 with colors := dinsert rd1.colors sid "black" },
       (Msg.assign_color "black" "Vous jouez les Noirs", Dest.sender))
    else
      (rd1, (Msg.assign_color "spectator" "Spectateur", Dest.sender))
  let rd2 := step.1
  { st := dinsert st1 room_code rd2,
    emits := [step.2,
              (Msg.player_status player_count (ready_count rd2.ready) 2,
               Dest.room room_code)],
    db := [] }

/-- `on_toggle_ready` (app.py lines 431-469): flip the sender's ready
flag, broadcast the ready status, and when 2 players are present and both
ready, broadcast `game_start` and set the room status to `playing`. -/
def on_toggle_ready (st : Registry) (room_code : String) (sid : Nat) : HandlerOut :=
  match dlookup st room_code with
  | none => { st := st, emits := [], db := [] }
  | some rd =>
    match dlookup rd.ready sid with
    | none => { st := st, emits := [], db := [] }
    | some cur =>
      let rd1 := { rd with ready := dinsert rd.ready sid (!cur) }
      let rc := ready_count rd1.ready
      let pc := rd1.players.length
      if rc = 2 ∧ pc = 2 then
        { st := dinsert st room_code rd1,
          emits := [(Msg.player_status pc rc 2, Dest.room room_code),
                    (Msg.game_start "Les 2 joueurs sont prêts ! La partie commence !",
                     Dest.room room_code)],
          db := [DbOp.setStatus room_code "playing"] }
      else
        { st := dinsert st room_code rd1,
          emits := [(Msg.player_status pc rc 2, Dest.room room_code)],
          db := [] }

/-- The operations `on_move` and `get_bot_move` call on the external
python-chess library (`chess.Board`, `chess.Move.from_uci`,
`board.legal_moves`, `board.push`, `board.turn`, ...). `B` is the board
type, `M` the move type; `parseUci` returns `none` where
`Move.from_uci` raises. `turn b = true` means White to move. -/
structure Rules (B M : Type) where
  ofFen : String → B
  fen : B → String
  parseUci : String → Option M
  legal : B → M → Bool
  push : B → M → B
  turn : B → Bool
  is_check : B → Bool
  is_game_over : B → Bool
  result : B → String

/-- `on_move` (app.py lines 471-517): reject when the room is unknown or
fewer than two present/ready players; otherwise parse the client-supplied
FEN and move, and if the move is legal in that position, push it, persist
the new position, and broadcast `move_made` to the room. Note that the
handler never consults `colors` — the `sid` argument is unused. -/
def on_move {B M : Type} (R : Rules B M) (st : Registry) (room_code : String)
    (sid : Nat) (move : String) (board_fen : String) : HandlerOut :=
  match dlookup st room_code with
  | none => { st := st, emits := [(Msg.error "Salon introuvable", Dest.sender)], db := [] }
  | some rd =>
    if ready_count rd.ready < 2 ∨ rd.players.length < 2 then
      { st := st,
        emits := [(Msg.error "Attendez que les 2 joueurs soient prêts", Dest.sender)],
        db := [] }
    else
      let board := R.ofFen board_fen
      match R.parseUci move with
      | none => { st := st, emits := [(Msg.error "Coup invalide", Dest.sender)], db := [] }
      | some m =>
        if R.legal board m then
          let b2 := R.push board m
          { st := st,
            emits := [(Msg.move_made move (R.fen b2) (R.is_check b2) (R.is_game_over b2)
                        (if R.is_game_over b2 then some (R.result b2) else none),
                       Dest.room room_code)],
            db := [DbOp.setBoard room_code (R.fen b2)
                    (if R.turn b2 then "black" else "white")] }
        else
          { st := st, emits := [(Msg.error "Coup illégal", Dest.sender)], db := [] }

/-- Removal of a sid from a room's three containers, as done by both
`on_disconnect` and `on_leave`. -/
def remove_sid (rd : RoomData) (sid : Nat) : RoomData :=
  { players := rd.players.erase sid,
    ready := dremove rd.ready sid,
    colors := dremove rd.colors sid }

/-- The `for sid in room_data.players: room_data.ready[sid] = False` reset
loop of `on_disconnect`. -/
def reset_ready (players : List Nat) (r : List (Nat × Bool)) : List (Nat × Bool) :=
  players.foldl (fun acc s => dinsert acc s false) r

/-- `on_disconnect` (app.py lines 519-557): scan the registry for the
first room containing the sid; remove the sid; if the room became empty
delete it from the registry, otherwise reset every remaining ready flag to
false and set the room status back to `waiting`. -/
def on_disconnect (sid : Nat) : Registry → HandlerOut
  | [] => { st := [], emits := [], db := [] }
  | (code, rd) :: rest =>
    if sid ∈ rd.players then
      let rd1 := remove_sid rd sid
      let pc := rd1.players.length
      if pc = 0 then
        { st := rest, emits := [(Msg.player_left pc, Dest.room code)], db := [] }
      else
        { st := (code, { rd1 with ready := reset_ready rd1.players rd1.ready }) :: rest,
          emits := [(Msg.player_left pc, Dest.room code)],
          db := [DbOp.setStatus code "waiting"] }
    else
      let out := on_disconnect sid rest
      { st := (code, rd) :: out.st, emits := out.emits, db := out.db }

/-- `on_leave` (app.py lines 559-581): remove the sid from the named room
and broadcast `player_left`; delete the room when it empties. Unlike
`on_disconnect`, it neither resets the remaining ready flags nor writes
the room status. -/
def on_leave (st : Registry) (room_code : String) (sid : Nat) : HandlerOut :=
  match dlookup st room_code with
  | none => { st := st, emits := [], db := [] }
  | some rd =>
    if sid ∈ rd.players then
      let rd1 := remove_sid rd sid
      let pc := rd1.players.length
      if pc = 0 then
        { st := dremove st room_code,
          emits := [(Msg.player_left pc, Dest.room room_code)], db := [] }
      else
        { st := dinsert st room_code rd1,
          emits := [(Msg.player_left pc, Dest.room room_code)], db := [] }
    else { st := st, emits := [], db := [] }

/-! ### Elo logic, difficulty table, bot move fallback -/

/-- The `expected` term inside `calculate_elo_change` (app.py line 78):
`1 / (1 + 10 ** ((opponent_elo - player_elo) / 400))`, with Python float
arithmetic modelled over the reals (real exponentiation). -/
noncomputable def expected_score (player_elo opponent_elo : ℤ) : ℝ :=
  1 / (1 + (10 : ℝ) ^ (((opponent_elo : ℝ) - (player_elo : ℝ)) / 400))

/-- `calculate_elo_change` (app.py lines 76-80): `round(K * (actual -
expected))` with `K = 32` and `actual` 1 for a win, 0 for a loss. -/
noncomputable def calculate_elo_change (player_elo opponent_elo : ℤ) (win : Bool) : ℤ :=
  let K : ℝ := 32
  let actual : ℝ := if win then 1 else 0
  round (K * (actual - expected_score player_elo opponent_elo))

/-- `get_bot_depth` (app.py lines 82-102): the rating → search-depth
tuning table. -/
def get_bot_depth (elo : ℤ) : ℤ :=
  if elo < 600 then 2
  else if elo < 800 then 4
  else if elo < 1000 then 6
  else if elo < 1200 then 8
  else if elo < 1400 then 11
  else if elo < 1600 then 14
  else if elo < 1800 then 17
  else if elo < 2000 then 20
  else if elo < 2200 then 23
  else 25

/-- A row of the `users` table, restricted to the columns
`handle_game_over` reads and writes. -/
structure UserRow where
  elo : ℤ
  peak_elo : ℤ
  games_played : ℤ
  games_won : ℤ
  deriving Repr, DecidableEq

/-- The effect of `handle_game_over` (app.py lines 308-357): the updated
`users` row together with the `games` row it inserts (`bot_elo`,
`result`, `elo_before`, `elo_after`, `elo_change`). -/
structure GameOverOut where
  user : UserRow
  bot_elo : ℤ
  result : String
  elo_before : ℤ
  elo_after : ℤ
  elo_change : ℤ

/-- `handle_game_over` (app.py lines 308-357). Note line 313:
`bot_elo = user.elo` — the opponent rating fed to the Elo formula is the
player's own current rating. A draw (any result other than `1-0`/`0-1`)
takes the `player_won = None` path: delta 0, rating unchanged. The peak
is `max(peak_elo, elo_after)` in every branch. -/
noncomputable def handle_game_over (result : String) (user : UserRow) : GameOverOut :=
  let bot_elo : ℤ := user.elo
  let elo_before : ℤ := user.elo
  let player_won : Option Bool :=
    if result = "1-0" then some true
    else if result = "0-1" then some false
    else none
  let elo_change : ℤ :=
    match player_won with
    | some w => calculate_elo_change elo_before bot_elo w
    | none => 0
  let elo_after : ℤ :=
    match player_won with
    | some _ => elo_before + elo_change
    | none => elo_before
  let games_won : ℤ :=
    user.games_won + (match player_won with | some true => 1 | _ => 0)
  let peak_elo : ℤ := max user.peak_elo elo_after
  { user := { elo := elo_after, peak_elo := peak_elo,
              games_played := user.games_played + 1, games_won := games_won },
    bot_elo := bot_elo, result := result,
    elo_before := elo_before, elo_after := elo_after, elo_change := elo_change }

/-- A sequence of rated matches: fold `handle_game_over` over the results,
feeding each updated `users` row into the next match. -/
noncomputable def run_matches : UserRow → List String → UserRow
  | u, [] => u
  | u, r :: rs => run_matches (handle_game_over r u).user rs

/-- The `except` branch of `get_bot_move` (app.py lines 134-139):
`random.choice(legal_moves).uci() if legal_moves else None`. The
python-chess legal-move generator is abstracted as `legalMoves` and
`random.choice` as indexing by `k mod length` for an arbitrary draw
`k` (uniform over a uniformly drawn `k`). -/
def get_bot_move_fallback {B M : Type} (legalMoves : B → List M) (uci : M → String)
    (board : B) (k : Nat) : Option String :=
  let legal := legalMoves board
  if h : 0 < legal.length then
    some (uci (legal.get ⟨k % legal.length, Nat.mod_lt k h⟩))
  else none

/-! ### Helper lemmas -/

theorem dlookup_reset_ready (players : List Nat) (r : List (Nat × Bool)) (s : Nat)
    (h : s ∈ players ∨ dlookup r s = some false) :
    dlookup (reset_ready players r) s = some false := by
  induction players generalizing r with
  | nil =>
      rcases h with h | h
      · cases h
      · simpa [reset_ready] using h
  | cons t ps ih =>
      have step : reset_ready (t :: ps) r = reset_ready ps (dinsert r t false) := rfl
      rw [step]
      apply ih
      by_cases hst : s = t
      · subst hst
        right
        exact dlookup_dinsert_self r s false
      · rcases h with h | h
        · rcases List.mem_cons.mp h with h1 | h1
          · exact absurd h1 hst
          · exact Or.inl h1
        · right
          rw [dlookup_dinsert_ne r t s false (fun he => hst he.symm)]
          exact h

theorem expected_score_self (p : ℤ) : expected_score p p = 1 / 2 := by
  unfold expected_score
  rw [sub_self, zero_div, Real.rpow_zero]
  norm_num

theorem calculate_elo_change_self (p : ℤ) :
    calculate_elo_change p p true = 16 ∧ calculate_elo_change p p false = -16 := by
  unfold calculate_elo_change
  rw [expected_score_self]
  constructor
  · norm_num [round_eq]
  · norm_num [round_eq]

/-! ### Concrete scenario states -/

/-- A two-player room: sids 1 (white) and 2 (black), both ready. -/
def twoPlayerRoom : RoomData :=
  { players := [1, 2],
    ready := [(1, true), (2, true)],
    colors := [(1, "white"), (2, "black")] }

/-- A registry holding just `twoPlayerRoom` under code `ABC123`. -/
def twoPlayerReg : Registry := [("ABC123", twoPlayerRoom)]

/-- A one-player room: sid 1 (white), ready. -/
def soloRoom : RoomData :=
  { players := [1], ready := [(1, true)], colors := [(1, "white")] }

/-- A registry holding just `soloRoom` under code `ABC123`. -/
def soloReg : Registry := [("ABC123", soloRoom)]

/-- A fresh account row at the 1000 starting rating. -/
def sampleUser : UserRow :=
  { elo := 1000, peak_elo := 1000, games_played := 0, games_won := 0 }

/-- A concrete instance of the python-chess operations used for witnesses:
the board is just the side to move (`true` = White), there is a single
move `e2e4`, every move is legal and flips the turn. -/
def ToyRules : Rules Bool Unit :=
  { ofFen := fun s => s == "w",
    fen := fun b => if b then "w" else "b",
    parseUci := fun s => if s = "e2e4" then some () else none,
    legal := fun _ _ => true,
    push := fun b _ => !b,
    turn := fun b => b,
    is_check := fun _ => false,
    is_game_over := fun _ => false,
    result := fun _ => "*" }

/-- The §8 handshake scenario: joins of sids 1 and 2 into room `ABC123`,
then the two ready toggles, then a redundant off/on toggle pair by sid 1. -/
def joinStep1 : HandlerOut := on_join [] "ABC123" 1

def joinStep2 : HandlerOut := on_join joinStep1.st "ABC123" 2

def toggleStep1 : HandlerOut := on_toggle_ready joinStep2.st "ABC123" 1

def toggleStep2 : HandlerOut := on_toggle_ready toggleStep1.st "ABC123" 2

def toggleStep3 : HandlerOut := on_toggle_ready toggleStep2.st "ABC123" 1

def toggleStep4 : HandlerOut := on_toggle_ready toggleStep3.st "ABC123" 1

/-- Whether an emitted message is the `game_start` broadcast. -/
def isGameStart : Msg → Bool
  | Msg.game_start _ => true
  | _ => false

/-- Number of `game_start` events in an emission list. -/
def count_game_start (emits : List (Msg × Dest)) : Nat :=
  (emits.filter (fun e => isGameStart e.1)).length

/-! ### Branch lemmas for the game-over handler -/

theorem handle_game_over_win (u : UserRow) :
    (handle_game_over "1-0" u).elo_change = 16 ∧
    (handle_game_over "1-0" u).elo_after = u.elo + 16 ∧
    (handle_game_over "1-0" u).user.elo = u.elo + 16 ∧
    (handle_game_over "1-0" u).user.peak_elo = max u.peak_elo (u.elo + 16) := by
  unfold handle_game_over
  simp [(calculate_elo_change_self u.elo).1]

theorem handle_game_over_loss (u : UserRow) :
    (handle_game_over "0-1" u).elo_change = -16 ∧
    (handle_game_over "0-1" u).elo_after = u.elo + -16 ∧
    (handle_game_over "0-1" u).user.elo = u.elo + -16 ∧
    (handle_game_over "0-1" u).user.peak_elo = max u.peak_elo (u.elo + -16) := by
  unfold handle_game_over
  rw [if_neg (by decide : ¬("0-1" : String) = "1-0")]
  simp [(calculate_elo_change_self u.elo).2]

theorem handle_game_over_other (res : String) (u : UserRow)
    (h1 : res ≠ "1-0") (h2 : res ≠ "0-1") :
    (handle_game_over res u).elo_change = 0 ∧
    (handle_game_over res u).elo_after = u.elo ∧
    (handle_game_over res u).user.elo = u.elo ∧
    (handle_game_over res u).user.peak_elo = max u.peak_elo u.elo := by
  unfold handle_game_over
  rw [if_neg h1, if_neg h2]
  simp

/-! ### Claim theorems -/

/-- Claim C5: the rating delta of a decisive rated match is
`round(32 * (actual - expected))` with
`expected = 1 / (1 + 10 ^ ((o - p) / 400))` and `actual` 1 for a win and
0 for a loss; in particular a player at rating 1000 beating an opponent
rated 1000 gains exactly 16, ending at rating 1016 (and peak 1016). -/
theorem C5_elo_formula_and_scenario :
    (∀ (p o : ℤ) (win : Bool),
      calculate_elo_change p o win =
        round ((32 : ℝ) * ((if win then (1 : ℝ) else 0) -
          1 / (1 + (10 : ℝ) ^ (((o : ℝ) - (p : ℝ)) / 400))))) ∧
    calculate_elo_change 1000 1000 true = 16 ∧
    (handle_game_over "1-0" sampleUser).elo_change = 16 ∧
    (handle_game_over "1-0" sampleUser).user.elo = 1016 ∧
    (handle_game_over "1-0" sampleUser).user.peak_elo = 1016 := by
  refine ⟨fun p o win => rfl, (calculate_elo_change_self 1000).1, ?_, ?_, ?_⟩
  · exact (handle_game_over_win sampleUser).1
  · rw [(handle_game_over_win sampleUser).2.2.1]; rfl
  · rw [(handle_game_over_win sampleUser).2.2.2]; rfl

/-- Claim C6: a rated match ending in a draw (any result other than
`1-0` or `0-1`) produces rating delta 0 and leaves the rating unchanged. -/
theorem C6_draw_zero_delta (res : String) (u : UserRow)
    (h1 : res ≠ "1-0") (h2 : res ≠ "0-1") :
    (handle_game_over res u).elo_change = 0 ∧
    (handle_game_over res u).user.elo = u.elo := by
  obtain ⟨a, _, b, _⟩ := handle_game_over_other res u h1 h2
  exact ⟨a, b⟩

/-- Witness for C6 at the concrete draw result `1/2-1/2`. -/
theorem C6_draw_zero_delta_witness :
    (handle_game_over "1/2-1/2" sampleUser).elo_change = 0 ∧
    (handle_game_over "1/2-1/2" sampleUser).user.elo = sampleUser.elo :=
  C6_draw_zero_delta "1/2-1/2" sampleUser (by decide) (by decide)

/-- Claim C7: at every match end, win, loss or draw, the stored peak
becomes `max(previous peak, rating after the match)`, hence the peak
never decreases across any sequence of match ends. -/
theorem C7_peak_monotone :
    (∀ (res : String) (u : UserRow),
      (handle_game_over res u).user.peak_elo =
        max u.peak_elo (handle_game_over res u).elo_after) ∧
    (∀ (u : UserRow) (rs : List String),
      u.peak_elo ≤ (run_matches u rs).peak_elo) := by
  have hmax : ∀ (res : String) (u : UserRow),
      (handle_game_over res u).user.peak_elo =
        max u.peak_elo (handle_game_over res u).elo_after := fun res u => rfl
  refine ⟨hmax, ?_⟩
  intro u rs
  induction rs generalizing u with
  | nil => exact le_refl _
  | cons r rs ih =>
      have hstep : u.peak_elo ≤ (handle_game_over r u).user.peak_elo := by
        rw [hmax r u]; exact le_max_left _ _
      exact le_trans hstep (ih ((handle_game_over r u).user))

/-- Claim C8: `get_bot_depth` is monotone non-decreasing over all integer
ratings, and the budget for rating 1000 is strictly below the budget for
rating 1800. -/
theorem C8_bot_depth_monotone :
    (∀ r1 r2 : ℤ, r1 ≤ r2 → get_bot_depth r1 ≤ get_bot_depth r2) ∧
    get_bot_depth 1000 < get_bot_depth 1800 := by
  constructor
  · intro r1 r2 h
    unfold get_bot_depth
    omega
  · decide

/-- Witness for C8 at ratings 1000 ≤ 1800. -/
theorem C8_bot_depth_monotone_witness :
    (1000 : ℤ) ≤ 1800 ∧ get_bot_depth 1000 ≤ get_bot_depth 1800 :=
  ⟨by decide, C8_bot_depth_monotone.1 1000 1800 (by decide)⟩

/-- Claim C10: `handle_game_over` feeds the player's own current rating in
as the opponent rating (`bot_elo = user.elo`, app.py line 313), so the
expected score is exactly 1/2 and the recorded delta is +16 on a win,
-16 on a loss and 0 on a draw, for every player rating. -/
theorem C10_self_opponent_fixed_delta (res : String) (u : UserRow) :
    (handle_game_over res u).bot_elo = u.elo ∧
    (res = "1-0" → (handle_game_over res u).elo_change = 16 ∧
      (handle_game_over res u).user.elo = u.elo + 16) ∧
    (res = "0-1" → (handle_game_over res u).elo_change = -16 ∧
      (handle_game_over res u).user.elo = u.elo - 16) ∧
    (res ≠ "1-0" → res ≠ "0-1" → (handle_game_over res u).elo_change = 0) := by
  refine ⟨rfl, ?_, ?_, ?_⟩
  · rintro rfl
    exact ⟨(handle_game_over_win u).1, (handle_game_over_win u).2.2.1⟩
  · rintro rfl
    refine ⟨(handle_game_over_loss u).1, ?_⟩
    rw [(handle_game_over_loss u).2.2.1]
    omega
  · intro h1 h2
    exact (handle_game_over_other res u h1 h2).1

/-- Witness for C10 at the three concrete results for a rating-1000 user. -/
theorem C10_self_opponent_fixed_delta_witness :
    (handle_game_over "1-0" sampleUser).elo_change = 16 ∧
    (handle_game_over "0-1" sampleUser).elo_change = -16 ∧
    (handle_game_over "1/2-1/2" sampleUser).elo_change = 0 :=
  ⟨((C10_self_opponent_fixed_delta "1-0" sampleUser).2.1 rfl).1,
   ((C10_self_opponent_fixed_delta "0-1" sampleUser).2.2.1 rfl).1,
   (C10_self_opponent_fixed_delta "1/2-1/2" sampleUser).2.2.2 (by decide) (by decide)⟩

/-- Claim C2: the §8 handshake (join 1, join 2, toggle 1, toggle 2)
broadcasts `game_start` exactly once, but the code has no one-shot guard:
with the roster unchanged, a subsequent off/on toggle pair by sid 1
(`toggleStep3`, `toggleStep4`) re-fires the `game_start` broadcast and
re-writes the `playing` status, contradicting the claim's
"broadcast exactly once / must not re-fire". -/
theorem C2_game_start_refires :
    count_game_start joinStep1.emits = 0 ∧
    count_game_start joinStep2.emits = 0 ∧
    count_game_start toggleStep1.emits = 0 ∧
    count_game_start toggleStep2.emits = 1 ∧
    count_game_start toggleStep3.emits = 0 ∧
    count_game_start toggleStep4.emits = 1 ∧
    toggleStep4.db = [DbOp.setStatus "ABC123" "playing"] ∧
    ((dlookup toggleStep4.st "ABC123").getD emptyRoom).players =
      ((dlookup toggleStep2.st "ABC123").getD emptyRoom).players := by
  decide

/-- Claim C3 (amended): re-joining with a sid already in the roster never
creates a second roster entry and leaves the readiness map unchanged, but
the role is recomputed from the occupancy count: the sole player of a
one-player room is (re)assigned White, a re-joiner of a two-player room
is reassigned Black, and with three or more players the stored colors are
untouched. -/
theorem C3_rejoin_roster_idempotent_role_recomputed (st : Registry)
    (code : String) (sid : Nat) (rd : RoomData)
    (hroom : dlookup st code = some rd) (hmem : sid ∈ rd.players) :
    ((dlookup (on_join st code sid).st code).getD emptyRoom).players = rd.players ∧
    ((dlookup (on_join st code sid).st code).getD emptyRoom).ready = rd.ready ∧
    ((dlookup (on_join st code sid).st code).getD emptyRoom).colors =
      (if rd.players.length = 1 then dinsert rd.colors sid "white"
       else if rd.players.length = 2 then dinsert rd.colors sid "black"
       else rd.colors) := by
  simp only [on_join, hroom, Option.isSome_some, if_true, Option.getD_some]
  rw [if_pos hmem]
  split_ifs with h1 h2 <;> simp [dlookup_dinsert_self]

/-- Witness for C3's amended statement: the sole player of a one-player
room re-joins and keeps roster, readiness and (White) role. -/
theorem C3_rejoin_witness :
    ((dlookup (on_join soloReg "ABC123" 1).st "ABC123").getD emptyRoom).players =
      soloRoom.players ∧
    ((dlookup (on_join soloReg "ABC123" 1).st "ABC123").getD emptyRoom).ready =
      soloRoom.ready ∧
    ((dlookup (on_join soloReg "ABC123" 1).st "ABC123").getD emptyRoom).colors =
      (if soloRoom.players.length = 1 then dinsert soloRoom.colors 1 "white"
       else if soloRoom.players.length = 2 then dinsert soloRoom.colors 1 "black"
       else soloRoom.colors) :=
  C3_rejoin_roster_idempotent_role_recomputed soloReg "ABC123" 1 soloRoom
    (by decide) (by decide)

/-- Counterexample to claim C3 as stated: sid 1 holds White in the
two-player room, yet re-joining reassigns it Black (the occupancy count is
2, so the `elif player_count == 2` branch overwrites its color). -/
theorem C3_counterexample_rejoin_reassigns_role :
    dlookup twoPlayerRoom.colors 1 = some "white" ∧
    dlookup ((dlookup (on_join twoPlayerReg "ABC123" 1).st "ABC123").getD
      emptyRoom).colors 1 = some "black" := by
  decide

/-- Claim C4 (amended): a Disconnect that vacates a seat while another
participant remains writes status `waiting` and resets every remaining
ready flag to false; a Disconnect or a Leave that empties the roster
removes the room from the in-memory registry. (A Leave with participants
remaining does neither reset nor status write — see the
counterexample.) -/
theorem C4_disconnect_resets_leave_removes :
    (∀ (sid : Nat) (code : String) (rd : RoomData) (rest : Registry),
      sid ∈ rd.players → rd.players.erase sid ≠ [] →
      (on_disconnect sid ((code, rd) :: rest)).db = [DbOp.setStatus code "waiting"] ∧
      ∀ s ∈ ((dlookup (on_disconnect sid ((code, rd) :: rest)).st code).getD
          emptyRoom).players,
        dlookup ((dlookup (on_disconnect sid ((code, rd) :: rest)).st code).getD
          emptyRoom).ready s = some false) ∧
    (∀ (sid : Nat) (code : String) (rd : RoomData) (rest : Registry),
      sid ∈ rd.players → rd.players.erase sid = [] →
      (on_disconnect sid ((code, rd) :: rest)).st = rest) ∧
    (∀ (sid : Nat) (code : String) (rd : RoomData) (st : Registry),
      dlookup st code = some rd → sid ∈ rd.players → rd.players.erase sid = [] →
      (on_leave st code sid).st = dremove st code) := by
  refine ⟨?_, ?_, ?_⟩
  · intro sid code rd rest hmem hne
    have hpc : ¬((remove_sid rd sid).players.length = 0) := by
      simpa [remove_sid, List.length_eq_zero] using hne
    unfold on_disconnect
    rw [if_pos hmem, if_neg hpc]
    refine ⟨rfl, ?_⟩
    intro s hs
    simp only [dlookup, if_pos rfl, Option.getD_some] at hs ⊢
    exact dlookup_reset_ready _ _ _ (Or.inl hs)
  · intro sid code rd rest hmem hempty
    have hpc : (remove_sid rd sid).players.length = 0 := by
      simp [remove_sid, hempty]
    unfold on_disconnect
    rw [if_pos hmem, if_pos hpc]
  · intro sid code rd st hroom hmem hempty
    have hpc : (remove_sid rd sid).players.length = 0 := by
      simp [remove_sid, hempty]
    unfold on_leave
    rw [hroom]
    simp only [if_pos hmem, if_pos hpc]

/-- Witness for C4's amended statement: disconnecting sid 1 from the
two-player room resets sid 2's ready flag and writes `waiting`;
disconnecting or leaving as the sole player removes the room. -/
theorem C4_witness :
    (on_disconnect 1 [("ABC123", twoPlayerRoom)]).db =
      [DbOp.setStatus "ABC123" "waiting"] ∧
    dlookup ((dlookup (on_disconnect 1 [("ABC123", twoPlayerRoom)]).st
      "ABC123").getD emptyRoom).ready 2 = some false ∧
    (on_disconnect 1 [("XYZ999", soloRoom)]).st = [] ∧
    (on_leave [("XYZ999", soloRoom)] "XYZ999" 1).st =
      dremove [("XYZ999", soloRoom)] "XYZ999" := by
  refine ⟨?_, ?_, ?_, ?_⟩
  · exact (C4_disconnect_resets_leave_removes.1 1 "ABC123" twoPlayerRoom []
      (by decide) (by decide)).1
  · exact (C4_disconnect_resets_leave_removes.1 1 "ABC123" twoPlayerRoom []
      (by decide) (by decide)).2 2 (by decide)
  · exact C4_disconnect_resets_leave_removes.2.1 1 "XYZ999" soloRoom []
      (by decide) (by decide)
  · exact C4_disconnect_resets_leave_removes.2.2 1 "XYZ999" soloRoom
      [("XYZ999", soloRoom)] (by decide) (by decide) (by decide)

/-- Counterexample to claim C4 as stated: sid 1 (White) leaves the
two-player room via the `leave` event; sid 2 remains, yet its ready flag
stays `true` and no `waiting` status write is issued. -/
theorem C4_counterexample_leave_keeps_ready :
    (on_leave twoPlayerReg "ABC123" 1).db = [] ∧
    dlookup ((dlookup (on_leave twoPlayerReg "ABC123" 1).st "ABC123").getD
      emptyRoom).ready 2 = some true := by
  decide

/-- Claim C1 contradicted: `on_move` performs no turn/role check at all
(the handler never reads `colors`). For every rules engine, every room
with both players ready, and every submitter whose assigned color
differs from the side to move in the supplied position, a legal move is
still applied: it is broadcast to the room as `move_made` and persisted,
with no error (in particular no `NotYourTurn`) emitted to the
submitter. -/
theorem C1_move_no_turn_enforcement {B M : Type} (R : Rules B M) (st : Registry)
    (code : String) (sid : Nat) (rd : RoomData) (move board_fen c : String) (m : M)
    (hroom : dlookup st code = some rd)
    (hready : 2 ≤ ready_count rd.ready)
    (hcount : 2 ≤ rd.players.length)
    (hcolor : dlookup rd.colors sid = some c)
    (hmismatch : c ≠ (if R.turn (R.ofFen board_fen) then "white" else "black"))
    (hparse : R.parseUci move = some m)
    (hlegal : R.legal (R.ofFen board_fen) m = true) :
    (on_move R st code sid move board_fen).emits =
      [(Msg.move_made move (R.fen (R.push (R.ofFen board_fen) m))
          (R.is_check (R.push (R.ofFen board_fen) m))
          (R.is_game_over (R.push (R.ofFen board_fen) m))
          (if R.is_game_over (R.push (R.ofFen board_fen) m)
           then some (R.result (R.push (R.ofFen board_fen) m)) else none),
        Dest.room code)] ∧
    (on_move R st code sid move board_fen).db =
      [DbOp.setBoard code (R.fen (R.push (R.ofFen board_fen) m))
        (if R.turn (R.push (R.ofFen board_fen) m) then "black" else "white")] := by
  have hgate : ¬(ready_count rd.ready < 2 ∨ rd.players.length < 2) := by omega
  simp only [on_move, hroom, hparse]
  rw [if_neg hgate, if_pos hlegal]
  exact ⟨rfl, rfl⟩

/-- Witness for C1: in the two-player room with both players ready, the
Black-seated sid 2 submits `e2e4` on a position where White is to move
(`ToyRules` board `w`); the move is broadcast and persisted, no error. -/
theorem C1_move_no_turn_enforcement_witness :
    (on_move ToyRules twoPlayerReg "ABC123" 2 "e2e4" "w").emits =
      [(Msg.move_made "e2e4" "b" false false none, Dest.room "ABC123")] ∧
    (on_move ToyRules twoPlayerReg "ABC123" 2 "e2e4" "w").db =
      [DbOp.setBoard "ABC123" "b" "white"] :=
  C1_move_no_turn_enforcement ToyRules twoPlayerReg "ABC123" 2 twoPlayerRoom
    "e2e4" "w" "black" () (by decide) (by decide) (by decide) (by decide)
    (by decide) (by decide) (by decide)

/-- Claim C9: when the engine invocation fails, `get_bot_move` falls back
to `random.choice` over the legal moves of the supplied position: for a
position with at least one legal move the fallback always returns `some`
move from the legal-move set, and over a uniform draw `k < n` each of the
`n` legal moves is returned for exactly one `k` (uniform choice). -/
theorem C9_fallback_legal_uniform {B M : Type} (legalMoves : B → List M)
    (uci : M → String) (board : B) (hne : legalMoves board ≠ []) :
    (∀ k : Nat, ∃ m, m ∈ legalMoves board ∧
      get_bot_move_fallback legalMoves uci board k = some (uci m)) ∧
    (∀ i : Fin (legalMoves board).length,
      get_bot_move_fallback legalMoves uci board i.val =
        some (uci ((legalMoves board).get i))) := by
  have hpos : 0 < (legalMoves board).length := List.length_pos.mpr hne
  constructor
  · intro k
    refine ⟨(legalMoves board).get ⟨k % (legalMoves board).length, Nat.mod_lt k hpos⟩,
      List.get_mem _ _ _, ?_⟩
    simp [get_bot_move_fallback, hpos]
  · intro i
    have hfin : (⟨i.val % (legalMoves board).length, Nat.mod_lt i.val hpos⟩ :
        Fin (legalMoves board).length) = i := Fin.ext (Nat.mod_eq_of_lt i.isLt)
    simp only [get_bot_move_fallback, dif_pos hpos]
    rw [hfin]

/-- Witness for C9: a two-move legal list; draw 5 selects the second
move (5 mod 2 = 1), a member of the list. -/
theorem C9_fallback_witness :
    ∃ m, m ∈ ["a1a2", "b1b2"] ∧
      get_bot_move_fallback (fun _ : Unit => ["a1a2", "b1b2"]) (fun s => s) () 5 =
        some m :=
  (C9_fallback_legal_uniform (fun _ : Unit => ["a1a2", "b1b2"]) (fun s => s) ()
    (by decide)).1 5

end ChessApp
